import Mathlib

/-!
Shallow embedding of `app/utils/share.py` (subscription generation for the
Marzban panel): share-link builders, the Clash / Clash-Meta YAML node
builders, the sing-box outbound builder, format-variable resolution and the
host-resolution loop `process_inbounds_and_tags`.

Python dictionaries are modelled as association lists `List (String × Val)`
that preserve insertion order; `dictInsert` mirrors `d[k] = v` (update in
place when the key exists, append otherwise).  Randomness is made explicit:
the per-call salt (`secrets.token_hex(8)`) and the `random.choice` oracle
are parameters.  External collaborators that are not part of
`app/utils/share.py` (the template engine, `xray.config.inbounds_by_tag`,
`xray.hosts`, `readable_size`, `get_public_ip`, the current time) are
likewise passed as parameters.
-/

/-- JSON-like values, the codomain of the modelled Python dictionaries. -/
inductive Val where
  | str (s : String)
  | int (n : Int)
  | bool (b : Bool)
  | list (l : List Val)
  | obj (l : List (String × Val))

/-- Python `d[k] = v` on an insertion-ordered dictionary: update in place if
the key is present, append otherwise. -/
def dictInsert : List (String × Val) → String → Val → List (String × Val)
  | [], k, v => [(k, v)]
  | p :: ps, k, v => if p.1 = k then (k, v) :: ps else p :: dictInsert ps k v

/-- Python `d.get(k)` (`None` when absent). -/
def dGet : List (String × Val) → String → Option Val
  | [], _ => none
  | p :: ps, k => if p.1 = k then some p.2 else dGet ps k

/-- String value of a key, empty string when absent or not a string. -/
def dGetStr (d : List (String × Val)) (k : String) : String :=
  match dGet d k with
  | some (.str s) => s
  | _ => ""

/-- Key list of a modelled dictionary. -/
def dKeys (d : List (String × Val)) : List String := d.map (·.1)

/-- UTF-8 encoding of one code point (Python UTF-8 `str.encode`). -/
def utf8EncodeChar (c : Char) : List Nat :=
  let n := c.toNat
  if n < 0x80 then [n]
  else if n < 0x800 then [0xC0 + n / 64, 0x80 + n % 64]
  else if n < 0x10000 then [0xE0 + n / 4096, 0x80 + (n / 64) % 64, 0x80 + n % 64]
  else [0xF0 + n / 262144, 0x80 + (n / 4096) % 64, 0x80 + (n / 64) % 64, 0x80 + n % 64]

/-- UTF-8 bytes of a string. -/
def utf8Bytes (s : String) : List Nat := s.data.flatMap utf8EncodeChar

/-- Standard base64 alphabet position → character. -/
def b64Char (n : Nat) : Char :=
  if n < 26 then Char.ofNat (65 + n)
  else if n < 52 then Char.ofNat (97 + (n - 26))
  else if n < 62 then Char.ofNat (48 + (n - 52))
  else if n = 62 then '+' else '/'

/-- Standard base64 of a byte list (Python `base64.b64encode`). -/
def base64Chars : List Nat → List Char
  | [] => []
  | [b1] => [b64Char (b1 / 4), b64Char (b1 % 4 * 16), '=', '=']
  | [b1, b2] => [b64Char (b1 / 4), b64Char (b1 % 4 * 16 + b2 / 16), b64Char (b2 % 16 * 4), '=']
  | b1 :: b2 :: b3 :: rest =>
      b64Char (b1 / 4) :: b64Char (b1 % 4 * 16 + b2 / 16) ::
        b64Char (b2 % 16 * 4 + b3 / 64) :: b64Char (b3 % 64) :: base64Chars rest

/-- Python `base64.b64encode(s.encode()).decode()`. -/
def base64EncodeStr (s : String) : String := ⟨base64Chars (utf8Bytes s)⟩

/-- Upper-case hex digit, used by `urllib.parse.quote` percent escapes. -/
def hexUpper (n : Nat) : Char :=
  if n < 10 then Char.ofNat (48 + n) else Char.ofNat (65 + (n - 10))

/-- Bytes `urllib.parse.quote` never escapes (letters, digits, `_.-~`). -/
def alwaysSafeByte (b : Nat) : Bool :=
  decide ((65 ≤ b ∧ b ≤ 90) ∨ (97 ≤ b ∧ b ≤ 122) ∨ (48 ≤ b ∧ b ≤ 57) ∨
    b = 95 ∨ b = 46 ∨ b = 45 ∨ b = 126)

/-- Python `urllib.parse.quote(s, safe)`: percent-encode every UTF-8 byte
outside the always-safe set and the caller-supplied `safe` characters. -/
def pyQuote (safe : String) (s : String) : String :=
  ⟨(utf8Bytes s).flatMap fun b =>
    if alwaysSafeByte b || (utf8Bytes safe).contains b then [Char.ofNat b]
    else ['%', hexUpper (b / 16), hexUpper (b % 16)]⟩

/-- Python `urllib.parse.quote_plus` with an empty safe set: space becomes
`+`, every other byte outside the always-safe set is percent-encoded. -/
def pyQuotePlus (s : String) : String :=
  ⟨(utf8Bytes s).flatMap fun b =>
    if b = 32 then ['+']
    else if alwaysSafeByte b then [Char.ofNat b]
    else ['%', hexUpper (b / 16), hexUpper (b % 16)]⟩

/-- Python `urllib.parse.urlencode` on an insertion-ordered dict of strings
(default quoting via `quote_plus` with an empty safe set). -/
def urlencodePairs (l : List (String × String)) : String :=
  String.intercalate "&" (l.map fun p => pyQuotePlus p.1 ++ "=" ++ pyQuotePlus p.2)

/-- One escaped character of `json.dumps` output (`ensure_ascii=True`). -/
def jsonEscapeChar (c : Char) : String :=
  if c = '"' then "\\\""
  else if c = '\\' then "\\\\"
  else if c = '\n' then "\\n"
  else if c = '\r' then "\\r"
  else if c = '\t' then "\\t"
  else if c = '\x08' then "\\b"
  else if c = '\x0c' then "\\f"
  else if c.toNat < 0x20 then
    "\\u" ++ ⟨[hexUpper 0, hexUpper 0, Char.toLower (hexUpper (c.toNat / 16)),
               Char.toLower (hexUpper (c.toNat % 16))]⟩
  else if c.toNat < 0x7F then String.singleton c
  else if c.toNat < 0x10000 then
    "\\u" ++ ⟨[Char.toLower (hexUpper (c.toNat / 4096)),
               Char.toLower (hexUpper (c.toNat / 256 % 16)),
               Char.toLower (hexUpper (c.toNat / 16 % 16)),
               Char.toLower (hexUpper (c.toNat % 16))]⟩
  else
    let m := c.toNat - 0x10000
    let hi := 0xD800 + m / 1024
    let lo := 0xDC00 + m % 1024
    "\\u" ++ ⟨[Char.toLower (hexUpper (hi / 4096)), Char.toLower (hexUpper (hi / 256 % 16)),
               Char.toLower (hexUpper (hi / 16 % 16)), Char.toLower (hexUpper (hi % 16))]⟩ ++
    "\\u" ++ ⟨[Char.toLower (hexUpper (lo / 4096)), Char.toLower (hexUpper (lo / 256 % 16)),
               Char.toLower (hexUpper (lo / 16 % 16)), Char.toLower (hexUpper (lo % 16))]⟩

/-- JSON string literal as emitted by `json.dumps`. -/
def jsonStr (s : String) : String :=
  "\x22" ++ String.join (s.data.map jsonEscapeChar) ++ "\x22"

mutual

/-- Serialization of a value as by `json.dumps` (default separators). -/
def jsonVal : Val → String
  | .str s => jsonStr s
  | .int n => toString n
  | .bool b => if b then "true" else "false"
  | .list l => "[" ++ String.intercalate ", " (jsonValList l) ++ "]"
  | .obj l => "\x7b" ++ String.intercalate ", " (jsonValObj l) ++ "\x7d"

/-- Element renderings of a JSON array. -/
def jsonValList : List Val → List String
  | [] => []
  | v :: vs => jsonVal v :: jsonValList vs

/-- Member renderings of a JSON object. -/
def jsonValObj : List (String × Val) → List String
  | [] => []
  | (k, v) :: ps => (jsonStr k ++ ": " ++ jsonVal v) :: jsonValObj ps

end

/-- Code-point lexicographic comparison (Python string `<`). -/
def charListLt : List Char → List Char → Bool
  | [], [] => false
  | [], _ :: _ => true
  | _ :: _, [] => false
  | a :: as, b :: bs =>
    if a.toNat < b.toNat then true
    else if b.toNat < a.toNat then false
    else charListLt as bs

/-- Code-point lexicographic comparison of strings. -/
def strLt (a b : String) : Bool := charListLt a.data b.data

/-- Stable insertion step for sorting pairs by key. -/
def insertByKey (p : String × Val) : List (String × Val) → List (String × Val)
  | [] => [p]
  | q :: qs => if strLt p.1 q.1 then p :: q :: qs else q :: insertByKey p qs

/-- Key-sorted pair list, the effect of `json.dumps(..., sort_keys=True)`. -/
def sortPairs (l : List (String × Val)) : List (String × Val) :=
  l.foldr insertByKey []

/-- Python `json.dumps(payload, sort_keys=True)` on a dict payload. -/
def jsonDumpsSorted (l : List (String × Val)) : String :=
  jsonVal (.obj (sortPairs l))

/-- Payload dictionary built by `V2rayShareLink.vmess`, in Python insertion
order (the fixed base keys, then the TLS- or reality-specific extras). -/
def V2rayShareLink.vmessPayload (remark address : String) (port : Int)
    (id host net path type tls sni fp alpn pbk sid spx : String) : List (String × Val) :=
  [("add", .str address), ("aid", .str "0"), ("host", .str host), ("id", .str id),
   ("net", .str net), ("path", .str path), ("port", .int port), ("ps", .str remark),
   ("scy", .str "auto"), ("tls", .str tls), ("type", .str type), ("v", .str "2")] ++
  (if tls = "tls" then [("sni", .str sni), ("fp", .str fp), ("alpn", .str alpn)]
   else if tls = "reality" then
     [("sni", .str sni), ("fp", .str fp), ("pbk", .str pbk), ("sid", .str sid), ("spx", .str spx)]
   else [])

/-- Link of `V2rayShareLink.vmess`: scheme plus base64 of the key-sorted
JSON dump. -/
def V2rayShareLink.vmess (remark address : String) (port : Int)
    (id host net path type tls sni fp alpn pbk sid spx : String) : String :=
  "vmess://" ++ base64EncodeStr (jsonDumpsSorted
    (V2rayShareLink.vmessPayload remark address port id host net path type tls sni fp alpn pbk sid spx))

/-- Query payload shared by `V2rayShareLink.vless` and `.trojan`, in Python
insertion order. -/
def V2rayShareLink.streamPayload
    (net path host type flow tls sni fp alpn pbk sid spx : String) : List (String × String) :=
  [("security", tls), ("type", net), ("host", host), ("headerType", type)] ++
  (if flow ≠ "" ∧ net ∈ ["tcp", "kcp"] then [("flow", flow)] else []) ++
  (if net = "grpc" then [("serviceName", path)] else [("path", path)]) ++
  (if tls = "tls" then [("sni", sni), ("fp", fp), ("alpn", alpn)]
   else if tls = "reality" then
     [("sni", sni), ("fp", fp), ("pbk", pbk), ("sid", sid), ("spx", spx)]
   else [])

/-- Link of `V2rayShareLink.vless`: identity is the raw account id; the
remark is url-quoted with `urllib.parse.quote` (default safe set `/`). -/
def V2rayShareLink.vless (remark address : String) (port : Int)
    (id net path host type flow tls sni fp alpn pbk sid spx : String) : String :=
  "vless://" ++ id ++ "@" ++ address ++ ":" ++ toString port ++ "?" ++
    urlencodePairs (V2rayShareLink.streamPayload net path host type flow tls sni fp alpn pbk sid spx) ++
    "#" ++ pyQuote "/" remark

/-- Link of `V2rayShareLink.trojan`: identity is the password quoted with
`urllib.parse.quote` under the safe set `:`. -/
def V2rayShareLink.trojan (remark address : String) (port : Int)
    (password net path host type flow tls sni fp alpn pbk sid spx : String) : String :=
  "trojan://" ++ pyQuote ":" password ++ "@" ++ address ++ ":" ++ toString port ++ "?" ++
    urlencodePairs (V2rayShareLink.streamPayload net path host type flow tls sni fp alpn pbk sid spx) ++
    "#" ++ pyQuote "/" remark

/-- Link of `V2rayShareLink.shadowsocks` (the Python `security` parameter
defaults to `chacha20-ietf-poly1305`; callers in this file pass it
explicitly). -/
def V2rayShareLink.shadowsocks (remark address : String) (port : Int)
    (password security : String) : String :=
  "ss://" ++ base64EncodeStr (security ++ ":" ++ password) ++
    "@" ++ address ++ ":" ++ toString port ++ "#" ++ pyQuote "/" remark

/-- Per-protocol account settings (`settings.dict(no_obj=True)`): `id` for
vmess/vless, `password`/`method` for trojan/shadowsocks, optional `flow`
(empty string models the `settings.get` default when absent). -/
structure ProxyAccount where
  id : String
  password : String
  method : String
  flow : String
deriving DecidableEq, Repr

/-- Server listener descriptor (one entry of `xray.config.inbounds_by_tag`):
the fields `share.py` reads.  `sni` and `host` are candidate lists; the
optional `alpn`/`fp`/`pbk`/`sid`/`spx`/`ais` fields model `inbound.get`
with the empty string for an absent key. -/
structure InboundDefinition where
  protocol : String
  port : Int
  network : String
  tls : String
  sni : List String
  host : List String
  path : String
  header_type : String
  alpn : String
  fp : String
  pbk : String
  sid : String
  spx : String
  ais : String
deriving DecidableEq, Repr

/-- One entry of `xray.hosts[tag]`: per-tag alternate presentation.  `port`
and `tls` are `None`-able (`Option`); empty list / empty string are the
falsy values of the `or`-fallbacks in `process_inbounds_and_tags`. -/
structure HostOverride where
  remark : String
  address : String
  port : Option Int
  sni : List String
  host : List String
  tls : Option String
  alpn : String
  fingerprint : String
deriving DecidableEq, Repr

/-- The `host_inbound` dictionary handed to the encoders: the inbound copy
whose `port`/`sni`/`host`/`tls`/`alpn`/`fp` keys were overwritten by the
merge in `process_inbounds_and_tags` (`sni`/`host` are now plain strings). -/
structure ResolvedEndpoint where
  protocol : String
  port : Int
  network : String
  tls : String
  sni : String
  host : String
  path : String
  header_type : String
  alpn : String
  fp : String
  pbk : String
  sid : String
  spx : String
  ais : String
deriving DecidableEq, Repr

/-- Dispatch of `get_v2ray_link` on the protocol; Python falls off the end
(returns `None`) for an unknown protocol. -/
def get_v2ray_link (remark address : String) (inbound : ResolvedEndpoint)
    (settings : ProxyAccount) : Option String :=
  if inbound.protocol = "vmess" then
    some (V2rayShareLink.vmess remark address inbound.port settings.id inbound.host
      inbound.network inbound.path inbound.header_type inbound.tls inbound.sni
      inbound.fp inbound.alpn inbound.pbk inbound.sid inbound.spx)
  else if inbound.protocol = "vless" then
    some (V2rayShareLink.vless remark address inbound.port settings.id inbound.network
      inbound.path inbound.host inbound.header_type settings.flow inbound.tls inbound.sni
      inbound.fp inbound.alpn inbound.pbk inbound.sid inbound.spx)
  else if inbound.protocol = "trojan" then
    some (V2rayShareLink.trojan remark address inbound.port settings.password inbound.network
      inbound.path inbound.host inbound.header_type settings.flow inbound.tls inbound.sni
      inbound.fp inbound.alpn inbound.pbk inbound.sid inbound.spx)
  else if inbound.protocol = "shadowsocks" then
    some (V2rayShareLink.shadowsocks remark address inbound.port settings.password
      "chacha20-ietf-poly1305")
  else none

/-- State of `ClashConfiguration`: the accumulated proxy-node list
(the proxies entry of `self.data`) and the remark registry
(`self.proxy_remarks`).
The static `proxy-groups` / `rules` entries and the text rendering through
the external template engine are not modelled. -/
structure ClashState where
  proxies : List (List (String × Val))
  proxy_remarks : List String

/-- Fresh `ClashConfiguration()` state. -/
def ClashState.init : ClashState := ⟨[], []⟩

/-- The `while True` search of `ClashConfiguration._remark_validation`.
The source loop terminates because the candidates `remark ++ " (c)"` are
pairwise distinct while the registry is finite, so at most
`remarks.length + 1` candidates can collide; the fuel used below is that
bound and the fuel-exhausted branch is unreachable. -/
def remark_validation_loop (remarks : List String) (remark : String) : Nat → Nat → String
  | 0, c => remark ++ " (" ++ toString c ++ ")"
  | fuel + 1, c =>
    let new := remark ++ " (" ++ toString c ++ ")"
    if new ∈ remarks then remark_validation_loop remarks remark fuel (c + 1) else new

/-- Model of `ClashConfiguration._remark_validation`: return the requested remark if
free, otherwise the first free `remark (c)` for `c = 2, 3, ...`. -/
def remark_validation (remarks : List String) (remark : String) : String :=
  if remark ∈ remarks then remark_validation_loop remarks remark (remarks.length + 1) 2
  else remark

/-- Transport-specific option block of `ClashConfiguration.make_node` (the
in-place mutation of the network-opts entry of the node). -/
def clash_net_opts (network host path : String) : List (String × Val) :=
  let o : List (String × Val) := []
  let o := if network = "ws" then
      (if path ≠ "" then dictInsert o "path" (.str path) else o) |>
        (fun o => if host ≠ "" then dictInsert o "headers" (.obj [("Host", .str host)]) else o)
    else o
  let o := if network = "grpc" then
      (if path ≠ "" then dictInsert o "grpc-service-name" (.str path) else o)
    else o
  let o := if network = "h2" then
      (if path ≠ "" then dictInsert o "path" (.str path) else o) |>
        (fun o => if host ≠ "" then dictInsert o "host" (.list [.str host]) else o)
    else o
  let o := if network = "http" ∨ network = "tcp" then
      (if path ≠ "" then dictInsert (dictInsert o "method" (.str "GET")) "path" (.list [.str path]) else o) |>
        (fun o => if host ≠ "" then
          dictInsert (dictInsert o "method" (.str "GET")) "headers" (.obj [("Host", .str host)]) else o)
    else o
  o

/-- Model of `ClashConfiguration.make_node`.  Note the early return fires
only for the literal type `ss`, which no caller in `share.py` passes (the
`add` methods pass the protocol name `shadowsocks`). -/
def ClashConfiguration.make_node (remarks : List String) (name type server : String)
    (port : Int) (network : String) (tls : Bool) (sni host path : String)
    (udp : Bool) (alpn : String) : List (String × Val) :=
  let remark := remark_validation remarks name
  let emptyNode : List (String × Val) :=
    [("name", .str remark), ("type", .str type), ("server", .str server),
     ("port", .int port), ("network", .str network), (network ++ "-opts", .obj []),
     ("udp", .bool udp)]
  if type = "ss" then emptyNode
  else
    let node :=
      if tls then
        let node := dictInsert emptyNode "tls" (.bool true)
        let node := if type = "trojan" then dictInsert node "sni" (.str sni)
          else dictInsert node "servername" (.str sni)
        if alpn ≠ "" then dictInsert node "alpn" (.list ((alpn.splitOn ",").map Val.str))
        else node
      else emptyNode
    dictInsert node (network ++ "-opts") (.obj (clash_net_opts network host path))

/-- Model of `ClashConfiguration.add`: build the node, then append node and the
originally requested remark for the protocols the base encoder supports
(the three protocol `if`s of the source are mutually exclusive). -/
def ClashConfiguration.add (st : ClashState) (remark address : String)
    (inbound : ResolvedEndpoint) (settings : ProxyAccount) : ClashState :=
  let node := ClashConfiguration.make_node st.proxy_remarks remark inbound.protocol address
    inbound.port inbound.network (inbound.tls = "tls") inbound.sni inbound.host
    inbound.path true inbound.alpn
  if inbound.protocol = "vmess" then
    { proxies := st.proxies ++
        [dictInsert (dictInsert (dictInsert node "uuid" (.str settings.id))
          "alterId" (.int 0)) "cipher" (.str "auto")],
      proxy_remarks := st.proxy_remarks ++ [remark] }
  else if inbound.protocol = "trojan" then
    { proxies := st.proxies ++ [dictInsert node "password" (.str settings.password)],
      proxy_remarks := st.proxy_remarks ++ [remark] }
  else if inbound.protocol = "shadowsocks" then
    { proxies := st.proxies ++ [dictInsert node "password" (.str settings.password)],
      proxy_remarks := st.proxy_remarks ++ [remark] }
  else st

/-- Model of `ClashMetaConfiguration.make_node`: the base node plus the Meta-only
`client-fingerprint` and `reality-opts` entries. -/
def ClashMetaConfiguration.make_node (remarks : List String) (name type server : String)
    (port : Int) (network : String) (tls : Bool) (sni host path : String)
    (udp : Bool) (alpn fp pbk sid : String) : List (String × Val) :=
  let node := ClashConfiguration.make_node remarks name type server port network tls
    sni host path udp alpn
  let node := if fp ≠ "" then dictInsert node "client-fingerprint" (.str fp) else node
  if pbk ≠ "" then
    dictInsert node "reality-opts" (.obj [("public-key", .str pbk), ("short-id", .str sid)])
  else node

/-- Model of `ClashMetaConfiguration.add`: like the base `add` but the TLS flag also
accepts reality, vless is supported, and tcp/kcp vless/trojan nodes gain a
`flow` entry. -/
def ClashMetaConfiguration.add (st : ClashState) (remark address : String)
    (inbound : ResolvedEndpoint) (settings : ProxyAccount) : ClashState :=
  let node := ClashMetaConfiguration.make_node st.proxy_remarks remark inbound.protocol address
    inbound.port inbound.network (inbound.tls = "tls" ∨ inbound.tls = "reality")
    inbound.sni inbound.host inbound.path true inbound.alpn inbound.fp inbound.pbk inbound.sid
  if inbound.protocol = "vmess" then
    { proxies := st.proxies ++
        [dictInsert (dictInsert (dictInsert node "uuid" (.str settings.id))
          "alterId" (.int 0)) "cipher" (.str "auto")],
      proxy_remarks := st.proxy_remarks ++ [remark] }
  else if inbound.protocol = "vless" then
    let node := dictInsert node "uuid" (.str settings.id)
    let node := if inbound.network = "tcp" ∨ inbound.network = "kcp" then
        dictInsert node "flow" (.str settings.flow)
      else node
    { proxies := st.proxies ++ [node], proxy_remarks := st.proxy_remarks ++ [remark] }
  else if inbound.protocol = "trojan" then
    let node := dictInsert node "password" (.str settings.password)
    let node := if inbound.network = "tcp" ∨ inbound.network = "kcp" then
        dictInsert node "flow" (.str settings.flow)
      else node
    { proxies := st.proxies ++ [node], proxy_remarks := st.proxy_remarks ++ [remark] }
  else if inbound.protocol = "shadowsocks" then
    { proxies := st.proxies ++ [dictInsert node "password" (.str settings.password)],
      proxy_remarks := st.proxy_remarks ++ [remark] }
  else st

/-- Model of `SingBoxConfiguration.tls_config`.  The parameters default to
`None`; `make_outbound` passes concrete (possibly empty) strings for all
of them.  The source compares the TLS mode against the literal tls by
identity on the `insecure` line; it is modelled as value equality here
(the spec flags that comparison as a latent defect; no claim in this
development depends on the `insecure` entry). -/
def SingBoxConfiguration.tls_config (sni fp tls pbk sid alpn ais : Option String) :
    List (String × Val) :=
  let c : List (String × Val) := []
  let c := if tls = some "tls" ∨ tls = some "reality" then
      dictInsert c "enabled" (.bool true) else c
  let c := match sni with
    | some s => dictInsert c "server_name" (.str s)
    | none => c
  let c := if tls = some "tls" ∧ (ais.getD "") ≠ "" then
      dictInsert c "insecure" (.str (ais.getD "")) else c
  let c := if tls = some "reality" then
      let r : List (String × Val) := [("enabled", .bool true)]
      let r := if (pbk.getD "") ≠ "" then dictInsert r "public_key" (.str (pbk.getD "")) else r
      let r := if (sid.getD "") ≠ "" then dictInsert r "short_id" (.str (sid.getD "")) else r
      dictInsert c "reality" (.obj r)
    else c
  let c := if (fp.getD "") ≠ "" then
      dictInsert c "utls" (.obj [("enabled", .bool true), ("fingerprint", .str (fp.getD ""))])
    else c
  if (alpn.getD "") ≠ "" then dictInsert c "alpn" (.list [.str (alpn.getD "")]) else c

/-- Model of `SingBoxConfiguration.transport_config`.  `make_outbound`
passes only `transport_type`, `host`, `path` and `headers`; the remaining
parameters keep their Python defaults (empty `method`, 15s idle and ping
timeouts, `max_early_data=None`, `early_data_header_name=None`,
`permit_without_stream=False`), which the callers below pass explicitly. -/
def SingBoxConfiguration.transport_config (transport_type host path method headers
    idle_timeout ping_timeout : String) (max_early_data : Option Int)
    (early_data_header_name : Option String) (permit_without_stream : Bool) :
    List (String × Val) :=
  let t : List (String × Val) := []
  if transport_type ≠ "" then
    let t := dictInsert t "type" (.str transport_type)
    if transport_type = "http" then
      let t := if host ≠ "" then dictInsert t "host" (.str host) else t
      let t := if path ≠ "" then dictInsert t "path" (.str path) else t
      let t := if method ≠ "" then dictInsert t "method" (.str method) else t
      let t := if headers ≠ "" then dictInsert t "headers" (.str headers) else t
      let t := if idle_timeout ≠ "" then dictInsert t "idle_timeout" (.str idle_timeout) else t
      if ping_timeout ≠ "" then dictInsert t "ping_timeout" (.str ping_timeout) else t
    else if transport_type = "ws" then
      let t := if path ≠ "" then dictInsert t "path" (.str path) else t
      let t := if headers ≠ "" then dictInsert t "headers" (.str headers) else t
      let t := match max_early_data with
        | some m => dictInsert t "max_early_data" (.int m)
        | none => t
      match early_data_header_name with
      | some e => if e ≠ "" then dictInsert t "early_data_header_name" (.str e) else t
      | none => t
    else if transport_type = "grpc" then
      let t := if path ≠ "" then dictInsert t "service_name" (.str path) else t
      let t := if idle_timeout ≠ "" then dictInsert t "idle_timeout" (.str idle_timeout) else t
      let t := if ping_timeout ≠ "" then dictInsert t "ping_timeout" (.str ping_timeout) else t
      if permit_without_stream then dictInsert t "permit_without_stream" (.bool true) else t
    else t
  else t

/-- Model of `SingBoxConfiguration.make_outbound`.  The network-dispatch
else branch of the source is a bare annotation statement, not an
assignment, so it adds no key.  Under `h2` the source rebinds `net` to
`http` and `alpn` to `h2` before building the transport block, which also
changes the `alpn` later passed to `tls_config`. -/
def SingBoxConfiguration.make_outbound (type remark address : String) (port : Int)
    (net path host flow tls sni fp alpn pbk sid headers ais : String) :
    List (String × Val) :=
  let config : List (String × Val) :=
    [("type", .str type), ("tag", .str remark), ("server", .str address),
     ("server_port", .int port)]
  let config := if net = "tcp" ∨ net = "kcp" then
      (if flow ≠ "" then dictInsert config "flow" (.str flow) else config)
    else config
  let alpn2 := if net = "h2" then "h2" else alpn
  let net2 := if net = "h2" then "http" else net
  let config := if net ∈ ["http", "ws", "quic", "grpc", "h2"] then
      dictInsert config "transport" (.obj
        (SingBoxConfiguration.transport_config net2 host path "" headers "15s" "15s"
          none none false))
    else config
  if tls = "tls" ∨ tls = "reality" then
    dictInsert config "tls" (.obj
      (SingBoxConfiguration.tls_config (some sni) (some fp) (some tls) (some pbk)
        (some sid) (some alpn2) (some ais)))
  else config

/-- Model of `SingBoxConfiguration.add`: build the outbound, attach the
per-protocol credential entries, append it to the outbound list (which
starts from the scaffold parsed out of the external template). -/
def SingBoxConfiguration.add (outbounds : List (List (String × Val)))
    (remark address : String) (inbound : ResolvedEndpoint) (settings : ProxyAccount) :
    List (List (String × Val)) :=
  let outbound := SingBoxConfiguration.make_outbound inbound.protocol remark address
    inbound.port inbound.network inbound.path inbound.host settings.flow inbound.tls
    inbound.sni inbound.fp inbound.alpn inbound.pbk inbound.sid inbound.header_type
    inbound.ais
  let outbound :=
    if inbound.protocol = "vmess" then dictInsert outbound "uuid" (.str settings.id)
    else if inbound.protocol = "vless" then dictInsert outbound "uuid" (.str settings.id)
    else if inbound.protocol = "trojan" then
      dictInsert outbound "password" (.str settings.password)
    else if inbound.protocol = "shadowsocks" then
      dictInsert (dictInsert outbound "password" (.str settings.password))
        "method" (.str settings.method)
    else outbound
  outbounds ++ [outbound]

/-- Proxy outbound types whose tags feed every `urltest` aggregator. -/
def sb_urltest_types : List String := ["vmess", "vless", "trojan", "shadowsocks"]

/-- Outbound types whose tags feed every `selector` aggregator. -/
def sb_selector_types : List String := ["vmess", "vless", "trojan", "shadowsocks", "urltest"]

/-- Tags of the outbounds whose type is a proxy type
(`urltest_tags` in `SingBoxConfiguration.render`). -/
def sb_urltest_tags (obs : List (List (String × Val))) : List String :=
  (obs.filter fun o => (dGetStr o "type") ∈ sb_urltest_types).map fun o => dGetStr o "tag"

/-- Tags of the outbounds whose type is a proxy type or `urltest`
(`selector_tags` in `SingBoxConfiguration.render`). -/
def sb_selector_tags (obs : List (List (String × Val))) : List String :=
  (obs.filter fun o => (dGetStr o "type") ∈ sb_selector_types).map fun o => dGetStr o "tag"

/-- Model of `SingBoxConfiguration.render` up to the final `json.dumps`: both tag
lists are computed over the outbound list first, then the first pass
rewrites the member list of every `urltest` aggregator and the second pass
rewrites the member list of every `selector` aggregator. -/
def SingBoxConfiguration.render (obs : List (List (String × Val))) :
    List (List (String × Val)) :=
  let urltest_tags := sb_urltest_tags obs
  let selector_tags := sb_selector_tags obs
  let obs := obs.map fun o =>
    if dGetStr o "type" = "urltest" then
      dictInsert o "outbounds" (.list (urltest_tags.map Val.str))
    else o
  obs.map fun o =>
    if dGetStr o "type" = "selector" then
      dictInsert o "outbounds" (.list (selector_tags.map Val.str))
    else o

/-- Unit components of `format_time_left` for a positive number of
remaining seconds, in emission order before the space-join (`divmod` on
positive ints is Nat division and remainder). -/
def timeLeftParts (s : Nat) : List String :=
  let minutes := s / 60
  let seconds := s % 60
  let hours := minutes / 60
  let minutes := minutes % 60
  let days := hours / 24
  let hours := hours % 24
  let months := days / 30
  let days := days % 30
  (if months ≠ 0 then [toString months ++ "m"] else []) ++
  (if days ≠ 0 then [toString days ++ "d"] else []) ++
  (if hours ≠ 0 ∧ days < 7 then [toString hours ++ "h"] else []) ++
  (if minutes ≠ 0 ∧ months = 0 ∧ days = 0 then [toString minutes ++ "m"] else []) ++
  (if seconds ≠ 0 ∧ months = 0 ∧ days = 0 then [toString seconds ++ "s"] else [])

/-- Model of `format_time_left`: `None` (the bare `return`) when no
seconds remain, otherwise the space-joined components.  `now` stands for
`int(dt.now().timestamp())`. -/
def format_time_left (now expire : Int) : Option String :=
  let seconds_left := expire - now
  if seconds_left ≤ 0 then none
  else some (" ".intercalate (timeLeftParts seconds_left.toNat))

/-- Values of the format-variable mapping: strings, the ints the source
stores for `DAYS_LEFT`/`TIME_LEFT` on expiry, and Python `None` (which
`format_time_left` can return). -/
inductive FmtVal where
  | str (s : String)
  | int (n : Int)
  | noneV
deriving DecidableEq, Repr

/-- The module-level `STATUS_EMOJIES` table. -/
def STATUS_EMOJIES : List (String × String) :=
  [("active", "✅"), ("expired", "⌛️"), ("limited", "🪫"), ("disabled", "❌")]

/-- Model of `setup_format_variables`.  `now` models `dt.now()` at whole-second
granularity; `(dt.fromtimestamp(expire) - dt.now()).days` is the
floor-division `Int.fdiv (expire - now) 86400` (`timedelta.days` floors).
`server_ip` and `readable_size` are the external collaborators
`get_public_ip()` and `app.utils.system.readable_size`. -/
def setup_format_variables (now : Int) (server_ip : String) (readable_size : Int → String)
    (expire : Option Int) (data_limit : Option Int) (used_traffic : Int)
    (status : Option String) (username : Option String) : List (String × FmtVal) :=
  let e := expire.getD 0
  let dl_tl : FmtVal × FmtVal :=
    if e > 0 then
      let days_left := Int.fdiv (e - now) 86400 + 1
      if ¬ days_left > 0 then (.int 0, .int 0)
      else (.int days_left,
        match format_time_left now e with
        | some s => .str s
        | none => .noneV)
    else (.str "∞", .str "∞")
  let data_pair : FmtVal × FmtVal :=
    match data_limit with
    | some dl =>
      if dl ≠ 0 then
        let left := dl - used_traffic
        let left := if left < 0 then 0 else left
        (.str (readable_size dl), .str (readable_size left))
      else (.str "∞", .str "∞")
    | none => (.str "∞", .str "∞")
  let status_emoji := match status with
    | some s => (STATUS_EMOJIES.lookup s).getD ""
    | none => ""
  [("SERVER_IP", .str server_ip),
   ("USERNAME", .str (username.getD "\x7bUSERNAME\x7d")),
   ("DATA_USAGE", .str (readable_size used_traffic)),
   ("DATA_LIMIT", data_pair.1),
   ("DATA_LEFT", data_pair.2),
   ("DAYS_LEFT", dl_tl.1),
   ("TIME_LEFT", dl_tl.2),
   ("STATUS_EMOJI", .str status_emoji)]

/-- Python `a or b` on candidate lists (empty list is falsy). -/
def pyOrListStr (a b : List String) : List String := if a = [] then b else a

/-- Python `a or b` where `a` is a `None`-able int (`None` and `0` falsy). -/
def pyOrInt (a : Option Int) (b : Int) : Int :=
  match a with
  | some v => if v = 0 then b else v
  | none => b

/-- Python `a or b` on strings (empty string is falsy). -/
def pyOrStr (a b : String) : String := if a = "" then b else a

/-- Python `template.replace('*', salt)` on the underlying characters. -/
def replaceStarChars (salt : List Char) : List Char → List Char
  | [] => []
  | c :: cs => (if c = '*' then salt else [c]) ++ replaceStarChars salt cs

/-- Python `template.replace('*', salt)`. -/
def replaceStar (salt s : String) : String := ⟨replaceStarChars salt.data s.data⟩

/-- Body of the `for host in xray.hosts.get(tag, [])` loop: build the
`host_inbound` merge of one `HostOverride` onto its `InboundDefinition`.
`salt` is the one `secrets.token_hex(8)` of the call and `choose` the
`random.choice` oracle. -/
def resolveHost (salt : String) (choose : List String → String)
    (inbound : InboundDefinition) (host : HostOverride) : ResolvedEndpoint :=
  let sni_list := pyOrListStr host.sni inbound.sni
  let sni := if sni_list ≠ [] then replaceStar salt (choose sni_list) else ""
  let req_list := pyOrListStr host.host inbound.host
  let req_host := if req_list ≠ [] then replaceStar salt (choose req_list) else ""
  { protocol := inbound.protocol
    port := pyOrInt host.port inbound.port
    network := inbound.network
    tls := match host.tls with | none => inbound.tls | some t => t
    sni := sni
    host := req_host
    path := inbound.path
    header_type := inbound.header_type
    alpn := pyOrStr host.alpn inbound.alpn
    fp := pyOrStr host.fingerprint inbound.fp
    pbk := inbound.pbk
    sid := inbound.sid
    spx := inbound.spx
    ais := inbound.ais }

/-- Endpoints produced for one requested tag: the missing-inbound case
(`if not inbound: continue`) yields nothing; otherwise one endpoint per
host override under the tag, with remark/address passed through `fmap`
(which abstracts `.format_map(format_variables)` of the external
`FormatVariables` class, including the per-iteration
`PROTOCOL`/`TRANSPORT` updates). -/
def processTag (salt : String) (choose : List String → String) (fmap : String → String)
    (inbounds_by_tag : String → Option InboundDefinition)
    (hosts_by_tag : String → List HostOverride) (tag : String) :
    List (String × String × ResolvedEndpoint) :=
  match inbounds_by_tag tag with
  | none => []
  | some inbound =>
    (hosts_by_tag tag).map fun host =>
      (fmap host.remark, fmap host.address, resolveHost salt choose inbound host)

/-- The protocol/tag double loop of `process_inbounds_and_tags`: a protocol
without account settings (`if not settings: continue`) yields nothing;
otherwise all endpoints of its tags, each paired with the settings that
the encoder receives. -/
def process_endpoints (salt : String) (choose : List String → String)
    (fmap : String → String) (inbounds_by_tag : String → Option InboundDefinition)
    (hosts_by_tag : String → List HostOverride)
    (inbounds : List (String × List String)) (proxies : String → Option ProxyAccount) :
    List (ProxyAccount × String × String × ResolvedEndpoint) :=
  inbounds.flatMap fun pt =>
    match proxies pt.1 with
    | none => []
    | some settings =>
      pt.2.flatMap fun tag =>
        (processTag salt choose fmap inbounds_by_tag hosts_by_tag tag).map
          fun e => (settings, e)

/-- Run of `process_inbounds_and_tags` in v2ray mode: one share link per
endpoint (`None` for a protocol `get_v2ray_link` does not know). -/
def generate_v2ray_links (salt : String) (choose : List String → String)
    (fmap : String → String) (inbounds_by_tag : String → Option InboundDefinition)
    (hosts_by_tag : String → List HostOverride)
    (inbounds : List (String × List String)) (proxies : String → Option ProxyAccount) :
    List (Option String) :=
  (process_endpoints salt choose fmap inbounds_by_tag hosts_by_tag inbounds proxies).map
    fun e => get_v2ray_link e.2.1 e.2.2.1 e.2.2.2 e.1

/-- Run of `process_inbounds_and_tags` in clash mode: fold `conf.add` over the
endpoints (Meta or base encoder per `generate_clash_subscription`). -/
def run_clash (is_meta : Bool) (salt : String) (choose : List String → String)
    (fmap : String → String) (inbounds_by_tag : String → Option InboundDefinition)
    (hosts_by_tag : String → List HostOverride)
    (inbounds : List (String × List String)) (proxies : String → Option ProxyAccount) :
    ClashState :=
  (process_endpoints salt choose fmap inbounds_by_tag hosts_by_tag inbounds proxies).foldl
    (fun st e =>
      if is_meta then ClashMetaConfiguration.add st e.2.1 e.2.2.1 e.2.2.2 e.1
      else ClashConfiguration.add st e.2.1 e.2.2.1 e.2.2.2 e.1)
    ClashState.init

/-- Run of `process_inbounds_and_tags` in sing-box mode: fold `conf.add` into
the scaffold outbound list parsed from the external template, then
finalize with `render`. -/
def run_singbox (template_outbounds : List (List (String × Val))) (salt : String)
    (choose : List String → String) (fmap : String → String)
    (inbounds_by_tag : String → Option InboundDefinition)
    (hosts_by_tag : String → List HostOverride)
    (inbounds : List (String × List String)) (proxies : String → Option ProxyAccount) :
    List (List (String × Val)) :=
  SingBoxConfiguration.render
    ((process_endpoints salt choose fmap inbounds_by_tag hosts_by_tag inbounds proxies).foldl
      (fun obs e => SingBoxConfiguration.add obs e.2.1 e.2.2.1 e.2.2.2 e.1)
      template_outbounds)

/-- Results of the four supported pipelines (structured just before the
final text serialization, which goes through external collaborators:
base64 join, the Clash YAML template round trip, `json.dumps`). -/
inductive SubOutput where
  | v2ray (links : List (Option String))
  | clash (st : ClashState)
  | singbox (outbounds : List (List (String × Val)))

/-- Model of `generate_subscription`: dispatch on `config_format`; every
format outside the four supported ones raises a ValueError naming the
requested format, modelled as `Except.error` with the exact message.  The
optional whole-payload base64 wrapping (`as_base64`) applies downstream of
this dispatch and is not modelled. -/
def generate_subscription (config_format : String) (salt : String)
    (choose : List String → String) (fmap : String → String)
    (inbounds_by_tag : String → Option InboundDefinition)
    (hosts_by_tag : String → List HostOverride)
    (template_outbounds : List (List (String × Val)))
    (inbounds : List (String × List String)) (proxies : String → Option ProxyAccount) :
    Except String SubOutput :=
  if config_format = "v2ray" then
    .ok (.v2ray (generate_v2ray_links salt choose fmap inbounds_by_tag hosts_by_tag
      inbounds proxies))
  else if config_format = "clash-meta" then
    .ok (.clash (run_clash true salt choose fmap inbounds_by_tag hosts_by_tag
      inbounds proxies))
  else if config_format = "clash" then
    .ok (.clash (run_clash false salt choose fmap inbounds_by_tag hosts_by_tag
      inbounds proxies))
  else if config_format = "sing-box" then
    .ok (.singbox (run_singbox template_outbounds salt choose fmap inbounds_by_tag
      hosts_by_tag inbounds proxies))
  else .error ("Unsupported format \x22" ++ config_format ++ "\x22")

/-- Whether `a` is an initial segment of `b`. -/
def beginsWith : List Char → List Char → Bool
  | [], _ => true
  | _ :: _, [] => false
  | a :: as, b :: bs => a == b && beginsWith as bs

/-- Whether `a` occurs as a contiguous segment of `b`. -/
def occursIn (a : List Char) : List Char → Bool
  | [] => beginsWith a []
  | c :: cs => beginsWith a (c :: cs) || occursIn a cs

theorem dGet_dictInsert_self (d : List (String × Val)) (k : String) (v : Val) :
    dGet (dictInsert d k v) k = some v := by
  induction d with
  | nil => simp [dictInsert, dGet]
  | cons p ps ih =>
    by_cases h : p.1 = k
    · simp [dictInsert, dGet, h]
    · simp [dictInsert, dGet, h, ih]

theorem dGet_dictInsert_ne (d : List (String × Val)) (k k2 : String) (v : Val)
    (h : k ≠ k2) : dGet (dictInsert d k v) k2 = dGet d k2 := by
  induction d with
  | nil => simp [dictInsert, dGet, h]
  | cons p ps ih =>
    by_cases hp : p.1 = k
    · simp [dictInsert, dGet, hp, h]
    · simp [dictInsert, dGet, hp, ih]

theorem dGetStr_dictInsert_ne (d : List (String × Val)) (k k2 : String) (v : Val)
    (h : k ≠ k2) : dGetStr (dictInsert d k v) k2 = dGetStr d k2 := by
  simp [dGetStr, dGet_dictInsert_ne d k k2 v h]

theorem beginsWith_append_self (a x : List Char) : beginsWith a (a ++ x) = true := by
  induction a with
  | nil => simp [beginsWith]
  | cons c cs ih => simp [beginsWith, ih]

theorem occursIn_of_beginsWith (a b : List Char) (h : beginsWith a b = true) :
    occursIn a b = true := by
  cases b with
  | nil => simpa [occursIn] using h
  | cons c cs => simp [occursIn, h]

theorem occursIn_append_right (a pre b : List Char) (h : occursIn a b = true) :
    occursIn a (pre ++ b) = true := by
  induction pre with
  | nil => simpa using h
  | cons c cs ih => simp [occursIn, ih]

/-- The wildcard substitution plants the salt: if the template contains the
wildcard character, the salt occurs contiguously in the substituted
string. -/
theorem occursIn_replaceStarChars (salt t : List Char) (h : '*' ∈ t) :
    occursIn salt (replaceStarChars salt t) = true := by
  induction t with
  | nil => cases h
  | cons c cs ih =>
    by_cases hc : c = '*'
    · subst hc
      have h1 : occursIn salt (salt ++ replaceStarChars salt cs) = true :=
        occursIn_of_beginsWith _ _ (beginsWith_append_self salt _)
      simpa [replaceStarChars] using h1
    · have hcs : '*' ∈ cs := by
        cases h with
        | head => exact absurd rfl hc
        | tail _ h2 => exact h2
      simp only [replaceStarChars, if_neg hc, List.singleton_append]
      simp [occursIn, ih hcs]

theorem resolveHost_sni (salt : String) (choose : List String → String)
    (inbound : InboundDefinition) (host : HostOverride) :
    (resolveHost salt choose inbound host).sni =
      if pyOrListStr host.sni inbound.sni ≠ [] then
        replaceStar salt (choose (pyOrListStr host.sni inbound.sni))
      else "" := rfl

theorem resolveHost_req_host (salt : String) (choose : List String → String)
    (inbound : InboundDefinition) (host : HostOverride) :
    (resolveHost salt choose inbound host).host =
      if pyOrListStr host.host inbound.host ≠ [] then
        replaceStar salt (choose (pyOrListStr host.host inbound.host))
      else "" := rfl

/-- Membership of one endpoint in the full processing loop: a protocol with
settings, a requested tag with an inbound definition and a host override
under the tag contribute exactly the merged endpoint. -/
theorem process_endpoint_mem
    (salt : String) (choose : List String → String) (fmap : String → String)
    (ibt : String → Option InboundDefinition) (hbt : String → List HostOverride)
    (inbounds : List (String × List String)) (proxies : String → Option ProxyAccount)
    (protocol : String) (tags : List String) (tag : String)
    (inbound : InboundDefinition) (host : HostOverride) (settings : ProxyAccount)
    (hm : (protocol, tags) ∈ inbounds) (hs : proxies protocol = some settings)
    (ht : tag ∈ tags) (hi : ibt tag = some inbound) (hh : host ∈ hbt tag) :
    (settings, fmap host.remark, fmap host.address,
        resolveHost salt choose inbound host) ∈
      process_endpoints salt choose fmap ibt hbt inbounds proxies := by
  simp only [process_endpoints, List.mem_flatMap]
  refine ⟨(protocol, tags), hm, ?_⟩
  have hs2 : proxies (protocol, tags).1 = some settings := hs
  rw [hs2]
  simp only [List.mem_flatMap]
  refine ⟨tag, ht, ?_⟩
  simp only [List.mem_map]
  refine ⟨(fmap host.remark, fmap host.address,
    resolveHost salt choose inbound host), ?_, rfl⟩
  simp only [processTag, hi, List.mem_map]
  exact ⟨host, hh, rfl⟩

/-- C3: one `process_inbounds_and_tags` call generates a single salt and
substitutes that same salt for every wildcard in every SNI and host value
it resolves: for any two endpoints produced in the same call — under any
protocols, tags and host overrides — each of the four resolved strings
(SNI and host of either endpoint) contains the identical substituted salt
as a contiguous segment whenever its chosen template contains the
wildcard. -/
theorem process_single_salt_wildcard
    (salt : String) (choose : List String → String) (fmap : String → String)
    (ibt : String → Option InboundDefinition) (hbt : String → List HostOverride)
    (inbounds : List (String × List String)) (proxies : String → Option ProxyAccount)
    (protocol1 : String) (tags1 : List String) (tag1 : String)
    (inbound1 : InboundDefinition) (host1 : HostOverride) (settings1 : ProxyAccount)
    (protocol2 : String) (tags2 : List String) (tag2 : String)
    (inbound2 : InboundDefinition) (host2 : HostOverride) (settings2 : ProxyAccount)
    (hm1 : (protocol1, tags1) ∈ inbounds) (hs1 : proxies protocol1 = some settings1)
    (ht1 : tag1 ∈ tags1) (hi1 : ibt tag1 = some inbound1) (hh1 : host1 ∈ hbt tag1)
    (hm2 : (protocol2, tags2) ∈ inbounds) (hs2 : proxies protocol2 = some settings2)
    (ht2 : tag2 ∈ tags2) (hi2 : ibt tag2 = some inbound2) (hh2 : host2 ∈ hbt tag2) :
    (settings1, fmap host1.remark, fmap host1.address,
        resolveHost salt choose inbound1 host1) ∈
      process_endpoints salt choose fmap ibt hbt inbounds proxies ∧
    (settings2, fmap host2.remark, fmap host2.address,
        resolveHost salt choose inbound2 host2) ∈
      process_endpoints salt choose fmap ibt hbt inbounds proxies ∧
    (pyOrListStr host1.sni inbound1.sni ≠ [] →
      '*' ∈ (choose (pyOrListStr host1.sni inbound1.sni)).data →
      occursIn salt.data (resolveHost salt choose inbound1 host1).sni.data = true) ∧
    (pyOrListStr host1.host inbound1.host ≠ [] →
      '*' ∈ (choose (pyOrListStr host1.host inbound1.host)).data →
      occursIn salt.data (resolveHost salt choose inbound1 host1).host.data = true) ∧
    (pyOrListStr host2.sni inbound2.sni ≠ [] →
      '*' ∈ (choose (pyOrListStr host2.sni inbound2.sni)).data →
      occursIn salt.data (resolveHost salt choose inbound2 host2).sni.data = true) ∧
    (pyOrListStr host2.host inbound2.host ≠ [] →
      '*' ∈ (choose (pyOrListStr host2.host inbound2.host)).data →
      occursIn salt.data (resolveHost salt choose inbound2 host2).host.data = true) := by
  refine ⟨process_endpoint_mem salt choose fmap ibt hbt inbounds proxies
      protocol1 tags1 tag1 inbound1 host1 settings1 hm1 hs1 ht1 hi1 hh1,
    process_endpoint_mem salt choose fmap ibt hbt inbounds proxies
      protocol2 tags2 tag2 inbound2 host2 settings2 hm2 hs2 ht2 hi2 hh2,
    ?_, ?_, ?_, ?_⟩
  · intro n w
    rw [resolveHost_sni, if_pos n]
    exact occursIn_replaceStarChars salt.data _ w
  · intro n w
    rw [resolveHost_req_host, if_pos n]
    exact occursIn_replaceStarChars salt.data _ w
  · intro n w
    rw [resolveHost_sni, if_pos n]
    exact occursIn_replaceStarChars salt.data _ w
  · intro n w
    rw [resolveHost_req_host, if_pos n]
    exact occursIn_replaceStarChars salt.data _ w

/-- A deterministic stand-in for the `random.choice` oracle. -/
def exChoose : List String → String := fun l => l.headD ""

/-- Example inbound with a wildcard SNI template. -/
def exInbound : InboundDefinition :=
  ⟨"vless", 443, "ws", "tls", ["*.example.com"], ["*.example.com"], "/path",
   "", "", "", "", "", "", ""⟩

/-- Example host override that leaves every field to the inbound. -/
def exHost : HostOverride := ⟨"remark", "addr", none, [], [], none, "", ""⟩

/-- Example tag registry with one inbound. -/
def exIbt : String → Option InboundDefinition :=
  fun t => if t = "t1" then some exInbound else none

/-- Example host registry with one host override under the tag. -/
def exHbt : String → List HostOverride := fun t => if t = "t1" then [exHost] else []

/-- Example account settings shared by the two endpoints of the witness
call. -/
def exAccount2 : ProxyAccount := ⟨"uid-2", "pw2", "aes-128-gcm", "xtls-rprx-vision"⟩

/-- Second example inbound (another protocol, another tag) with wildcard
SNI and host templates. -/
def exInbound2 : InboundDefinition :=
  ⟨"trojan", 8443, "tcp", "tls", ["*.cdn.example"], ["*.cdn.example"], "",
   "", "", "", "", "", "", ""⟩

/-- Second example host override, distinct from `exHost`. -/
def exHost2 : HostOverride := ⟨"r2", "a2", none, [], [], none, "", ""⟩

/-- Tag registry with two inbounds under distinct tags. -/
def exIbt2 : String → Option InboundDefinition :=
  fun t => if t = "t1" then some exInbound else if t = "t2" then some exInbound2 else none

/-- Host registry with one distinct host override under each tag. -/
def exHbt2 : String → List HostOverride :=
  fun t => if t = "t1" then [exHost] else if t = "t2" then [exHost2] else []

/-- Account registry for the vless and trojan protocols. -/
def exProxies : String → Option ProxyAccount :=
  fun p => if p = "vless" then some exAccount2
    else if p = "trojan" then some exAccount2 else none

/-- Requested protocol/tag lists of the example call. -/
def exInbounds : List (String × List String) := [("vless", ["t1"]), ("trojan", ["t2"])]

/-- Witness for `process_single_salt_wildcard` at two distinct endpoints of
the same call (different protocols, tags, inbounds and host overrides):
both memberships hold and all four resolved SNI/host strings contain the
one salt. -/
theorem process_single_salt_wildcard_witness :
    (exAccount2, id "remark", id "addr",
        resolveHost "s4lt" exChoose exInbound exHost) ∈
      process_endpoints "s4lt" exChoose id exIbt2 exHbt2 exInbounds exProxies ∧
    (exAccount2, id "r2", id "a2",
        resolveHost "s4lt" exChoose exInbound2 exHost2) ∈
      process_endpoints "s4lt" exChoose id exIbt2 exHbt2 exInbounds exProxies ∧
    occursIn "s4lt".data (resolveHost "s4lt" exChoose exInbound exHost).sni.data = true ∧
    occursIn "s4lt".data (resolveHost "s4lt" exChoose exInbound exHost).host.data = true ∧
    occursIn "s4lt".data (resolveHost "s4lt" exChoose exInbound2 exHost2).sni.data = true ∧
    occursIn "s4lt".data (resolveHost "s4lt" exChoose exInbound2 exHost2).host.data = true :=
  have h := process_single_salt_wildcard "s4lt" exChoose id exIbt2 exHbt2 exInbounds
    exProxies "vless" ["t1"] "t1" exInbound exHost exAccount2
    "trojan" ["t2"] "t2" exInbound2 exHost2 exAccount2
    (by decide) rfl (by decide) rfl (by decide)
    (by decide) rfl (by decide) rfl (by decide)
  ⟨h.1, h.2.1,
   h.2.2.1 (by decide) (by decide), h.2.2.2.1 (by decide) (by decide),
   h.2.2.2.2.1 (by decide) (by decide), h.2.2.2.2.2 (by decide) (by decide)⟩

/-- Follows the specification wording: port takes the override value when present
(truthy), otherwise the inbound value. -/
def spec_override_port (host : HostOverride) (inbound : InboundDefinition) : Int :=
  match host.port with
  | some p => if p ≠ 0 then p else inbound.port
  | none => inbound.port

/-- Follows the specification wording: TLS takes the inbound value only when the
override TLS field is unset; an empty override value is kept. -/
def spec_override_tls (host : HostOverride) (inbound : InboundDefinition) : String :=
  match host.tls with
  | some t => t
  | none => inbound.tls

/-- Follows the specification wording: ALPN takes the override value when present
(truthy), otherwise the inbound value. -/
def spec_override_alpn (host : HostOverride) (inbound : InboundDefinition) : String :=
  if host.alpn ≠ "" then host.alpn else inbound.alpn

/-- Follows the specification wording: fingerprint takes the override value when
present (truthy), otherwise the inbound value. -/
def spec_override_fp (host : HostOverride) (inbound : InboundDefinition) : String :=
  if host.fingerprint ≠ "" then host.fingerprint else inbound.fp

/-- C5: the `host_inbound` merge resolves port/ALPN/fingerprint as
"override if truthy, else inbound", and TLS as "inbound only when the
override TLS is `None`" — in particular an empty override TLS string is
kept. -/
theorem host_override_merge (salt : String) (choose : List String → String)
    (inbound : InboundDefinition) (host : HostOverride) :
    (resolveHost salt choose inbound host).port = spec_override_port host inbound ∧
    (resolveHost salt choose inbound host).tls = spec_override_tls host inbound ∧
    (resolveHost salt choose inbound host).alpn = spec_override_alpn host inbound ∧
    (resolveHost salt choose inbound host).fp = spec_override_fp host inbound ∧
    (host.tls = some "" → (resolveHost salt choose inbound host).tls = "") := by
  refine ⟨?_, ?_, ?_, ?_, ?_⟩
  · show pyOrInt host.port inbound.port = spec_override_port host inbound
    cases hp : host.port with
    | none => simp [pyOrInt, spec_override_port, hp]
    | some p =>
      by_cases h0 : p = 0
      · simp [pyOrInt, spec_override_port, hp, h0]
      · simp [pyOrInt, spec_override_port, hp, h0]
  · show (match host.tls with | none => inbound.tls | some t => t) = spec_override_tls host inbound
    cases ht : host.tls <;> simp [spec_override_tls, ht]
  · show pyOrStr host.alpn inbound.alpn = spec_override_alpn host inbound
    by_cases h : host.alpn = ""
    · simp [pyOrStr, spec_override_alpn, h]
    · simp [pyOrStr, spec_override_alpn, h]
  · show pyOrStr host.fingerprint inbound.fp = spec_override_fp host inbound
    by_cases h : host.fingerprint = ""
    · simp [pyOrStr, spec_override_fp, h]
    · simp [pyOrStr, spec_override_fp, h]
  · intro h
    show (match host.tls with | none => inbound.tls | some t => t) = ""
    rw [h]

/-- Example host override with a falsy port, an empty-string TLS override
and a nonempty ALPN. -/
def exHostTls : HostOverride := ⟨"r2", "a2", some 0, [], [], some "", "h2", "chrome"⟩

/-- Witness for `host_override_merge` at a concrete merge whose override
TLS is the empty string. -/
theorem host_override_merge_witness :
    (resolveHost "s" exChoose exInbound exHostTls).port = spec_override_port exHostTls exInbound ∧
    (resolveHost "s" exChoose exInbound exHostTls).tls = spec_override_tls exHostTls exInbound ∧
    (resolveHost "s" exChoose exInbound exHostTls).alpn = spec_override_alpn exHostTls exInbound ∧
    (resolveHost "s" exChoose exInbound exHostTls).fp = spec_override_fp exHostTls exInbound ∧
    (exHostTls.tls = some "" → (resolveHost "s" exChoose exInbound exHostTls).tls = "") :=
  host_override_merge "s" exChoose exInbound exHostTls

theorem dGetStr_outbounds_type (x : List (String × Val)) (v : Val) :
    dGetStr (dictInsert x "outbounds" v) "type" = dGetStr x "type" :=
  dGetStr_dictInsert_ne x "outbounds" "type" v (by decide)

/-- C4: `SingBoxConfiguration.render` finalizes in two passes: every
`urltest` aggregator receives the tags of all proxy-type outbounds as its
member list, and every `selector` aggregator receives the tags of all
proxy-type outbounds plus all `urltest` aggregators. -/
theorem singbox_render_two_pass (obs : List (List (String × Val)))
    (o : List (String × Val)) (ho : o ∈ SingBoxConfiguration.render obs) :
    (dGetStr o "type" = "urltest" →
      dGet o "outbounds" = some (.list ((sb_urltest_tags obs).map Val.str))) ∧
    (dGetStr o "type" = "selector" →
      dGet o "outbounds" = some (.list ((sb_selector_tags obs).map Val.str))) := by
  simp only [SingBoxConfiguration.render, List.map_map, List.mem_map,
    Function.comp] at ho
  obtain ⟨o0, _, rfl⟩ := ho
  by_cases hu : dGetStr o0 "type" = "urltest"
  · rw [if_pos hu]
    have ht : dGetStr (dictInsert o0 "outbounds"
        (Val.list ((sb_urltest_tags obs).map Val.str))) "type" = "urltest" := by
      rw [dGetStr_outbounds_type, hu]
    rw [if_neg (by rw [ht]; decide)]
    constructor
    · intro _
      exact dGet_dictInsert_self o0 "outbounds" _
    · intro hsel
      rw [ht] at hsel
      exact absurd hsel (by decide)
  · rw [if_neg hu]
    by_cases hs : dGetStr o0 "type" = "selector"
    · rw [if_pos hs]
      constructor
      · intro hurl
        rw [dGetStr_outbounds_type, hs] at hurl
        exact absurd hurl (by decide)
      · intro _
        exact dGet_dictInsert_self o0 "outbounds" _
    · rw [if_neg hs]
      exact ⟨fun h => absurd h hu, fun h => absurd h hs⟩

/-- Scaffold of two proxy outbounds, one `urltest` and one `selector`
aggregator. -/
def exSBObs : List (List (String × Val)) :=
  [[("type", .str "vmess"), ("tag", .str "p1")],
   [("type", .str "trojan"), ("tag", .str "p2")],
   [("type", .str "urltest"), ("tag", .str "auto")],
   [("type", .str "selector"), ("tag", .str "sel")]]

/-- Witness for `singbox_render_two_pass`: after adding two proxy
outbounds, one urltest and one selector, the rendered urltest carries both
proxy tags and the rendered selector carries both proxy tags plus the
urltest tag. -/
theorem singbox_render_two_pass_witness :
    sb_urltest_tags exSBObs = ["p1", "p2"] ∧
    sb_selector_tags exSBObs = ["p1", "p2", "auto"] ∧
    dGet ((SingBoxConfiguration.render exSBObs).get ⟨2, by decide⟩) "outbounds" =
      some (.list ((sb_urltest_tags exSBObs).map Val.str)) ∧
    dGet ((SingBoxConfiguration.render exSBObs).get ⟨3, by decide⟩) "outbounds" =
      some (.list ((sb_selector_tags exSBObs).map Val.str)) :=
  ⟨rfl, rfl,
   (singbox_render_two_pass exSBObs _ (List.get_mem _ _ _)).1 rfl,
   (singbox_render_two_pass exSBObs _ (List.get_mem _ _ _)).2 rfl⟩

/-- C10: for a network type outside the transport set,
`SingBoxConfiguration.make_outbound` adds neither a `transport` nor a
`network` entry (the `else` branch of the source is a bare annotation
statement), so the outbound carries only type/tag/server/server_port plus
the optional flow and TLS entries. -/
theorem make_outbound_no_transport (type remark address : String) (port : Int)
    (net path host flow tls sni fp alpn pbk sid headers ais : String)
    (hnet : net ∉ ["http", "ws", "quic", "grpc", "h2"]) :
    "transport" ∉ dKeys (SingBoxConfiguration.make_outbound type remark address port
      net path host flow tls sni fp alpn pbk sid headers ais) ∧
    "network" ∉ dKeys (SingBoxConfiguration.make_outbound type remark address port
      net path host flow tls sni fp alpn pbk sid headers ais) ∧
    ∀ k ∈ dKeys (SingBoxConfiguration.make_outbound type remark address port
      net path host flow tls sni fp alpn pbk sid headers ais),
      k ∈ ["type", "tag", "server", "server_port", "flow", "tls"] := by
  simp only [SingBoxConfiguration.make_outbound, if_neg hnet]
  split_ifs <;> simp_all [dictInsert, dKeys]

/-- Witness for `make_outbound_no_transport` at `net = "tcp"`. -/
theorem make_outbound_no_transport_witness :
    "transport" ∉ dKeys (SingBoxConfiguration.make_outbound "vless" "tag1" "srv" 443
      "tcp" "/p" "h" "xtls-rprx-vision" "tls" "sni.x" "chrome" "" "" "" "" "") ∧
    "network" ∉ dKeys (SingBoxConfiguration.make_outbound "vless" "tag1" "srv" 443
      "tcp" "/p" "h" "xtls-rprx-vision" "tls" "sni.x" "chrome" "" "" "" "" "") ∧
    ∀ k ∈ dKeys (SingBoxConfiguration.make_outbound "vless" "tag1" "srv" 443
      "tcp" "/p" "h" "xtls-rprx-vision" "tls" "sni.x" "chrome" "" "" "" "" ""),
      k ∈ ["type", "tag", "server", "server_port", "flow", "tls"] :=
  make_outbound_no_transport "vless" "tag1" "srv" 443 "tcp" "/p" "h" "xtls-rprx-vision"
    "tls" "sni.x" "chrome" "" "" "" "" "" (by decide)

/-- C6: expiry handling of `setup_format_variables`: a missing or
non-positive expiry epoch resolves `DAYS_LEFT` and `TIME_LEFT` to the
unlimited sentinel `∞`; a positive epoch computes whole days remaining
with a `+ 1` correction, and when the corrected value is not positive both
variables become the omit sentinel `0`, which differs from the unlimited
sentinel. -/
theorem format_variables_expiry (now : Int) (server_ip : String)
    (readable_size : Int → String) (expire : Option Int) (data_limit : Option Int)
    (used_traffic : Int) (status : Option String) (username : Option String) :
    (expire.getD 0 ≤ 0 →
      (setup_format_variables now server_ip readable_size expire data_limit used_traffic
        status username).lookup "DAYS_LEFT" = some (.str "∞") ∧
      (setup_format_variables now server_ip readable_size expire data_limit used_traffic
        status username).lookup "TIME_LEFT" = some (.str "∞")) ∧
    (∀ e : Int, expire = some e → 0 < e → Int.fdiv (e - now) 86400 + 1 ≤ 0 →
      (setup_format_variables now server_ip readable_size expire data_limit used_traffic
        status username).lookup "DAYS_LEFT" = some (.int 0) ∧
      (setup_format_variables now server_ip readable_size expire data_limit used_traffic
        status username).lookup "TIME_LEFT" = some (.int 0) ∧
      (FmtVal.int 0 ≠ FmtVal.str "∞")) ∧
    (∀ e : Int, expire = some e → 0 < e → 0 < Int.fdiv (e - now) 86400 + 1 →
      (setup_format_variables now server_ip readable_size expire data_limit used_traffic
        status username).lookup "DAYS_LEFT" =
          some (.int (Int.fdiv (e - now) 86400 + 1))) := by
  refine ⟨?_, ?_, ?_⟩
  · intro h
    have hnot : ¬ expire.getD 0 > 0 := by omega
    constructor <;> simp [setup_format_variables, hnot, List.lookup]
  · intro e he hpos hneg
    have h1 : Option.getD expire 0 > 0 := by rw [he]; simpa using hpos
    have h2 : ¬ Int.fdiv (Option.getD expire 0 - now) 86400 + 1 > 0 := by
      rw [he]; simp only [Option.getD_some]; omega
    refine ⟨?_, ?_, by decide⟩ <;>
      simp [setup_format_variables, h1, h2, List.lookup]
  · intro e he hpos hdays
    have h1 : Option.getD expire 0 > 0 := by rw [he]; simpa using hpos
    have h3 : ¬ (Int.fdiv (e - now) 86400 + 1 ≤ 0) := by omega
    simp [setup_format_variables, h1, he, h3, hpos, List.lookup]

/-- Witness for `format_variables_expiry`: expiry 0 gives the unlimited
sentinel; a past expiry gives the omit sentinel; a future expiry gives the
corrected day count. -/
theorem format_variables_expiry_witness :
    ((setup_format_variables 1000000 "ip" toString (some 0) none 0 none none).lookup
        "DAYS_LEFT" = some (.str "∞") ∧
     (setup_format_variables 1000000 "ip" toString (some 0) none 0 none none).lookup
        "TIME_LEFT" = some (.str "∞")) ∧
    ((setup_format_variables 1000000 "ip" toString (some 100) none 0 none none).lookup
        "DAYS_LEFT" = some (.int 0) ∧
     (setup_format_variables 1000000 "ip" toString (some 100) none 0 none none).lookup
        "TIME_LEFT" = some (.int 0) ∧
     (FmtVal.int 0 ≠ FmtVal.str "∞")) ∧
    (setup_format_variables 1000000 "ip" toString (some 2000000) none 0 none none).lookup
        "DAYS_LEFT" = some (.int 12) :=
  ⟨(format_variables_expiry 1000000 "ip" toString (some 0) none 0 none none).1
      (by decide),
   (format_variables_expiry 1000000 "ip" toString (some 100) none 0 none none).2.1
      100 rfl (by decide) (by decide),
   (format_variables_expiry 1000000 "ip" toString (some 2000000) none 0 none none).2.2
      2000000 rfl (by decide) (by decide)⟩

theorem mem_if_singleton {c : Prop} [Decidable c] {p x : String}
    (h : p ∈ (if c then [x] else [])) : p = x ∧ c := by
  by_cases hc : c
  · rw [if_pos hc] at h
    exact ⟨List.mem_singleton.mp h, hc⟩
  · rw [if_neg hc] at h
    cases h

theorem lastChar_append (x u : String) (c : Char) (hu : u.data = [c]) :
    (x ++ u).data.getLast? = some c := by
  have h : (x ++ u).data = x.data ++ u.data := rfl
  rw [h, hu, List.getLast?_concat]

theorem days_component_zero (s : Nat) (hm0 : s / 2592000 = 0)
    (hd0 : s / 86400 % 30 = 0) : s < 86400 := by
  have e3 : s / 86400 / 30 = s / 2592000 := by
    rw [Nat.div_div_eq_div_mul]
  have h30 : s / 86400 / 30 = 0 := by rw [e3]; exact hm0
  have hlt : s / 86400 < 30 := (Nat.div_eq_zero_iff (by norm_num)).mp h30
  rw [Nat.mod_eq_of_lt hlt] at hd0
  exact (Nat.div_eq_zero_iff (by norm_num : 0 < (86400 : Nat))).mp hd0

/-- Every element of `timeLeftParts` is one of the five unit components,
together with the guard under which it is emitted. -/
theorem timeLeftParts_cases (s : Nat) (p : String) (hp : p ∈ timeLeftParts s) :
    (p = toString (s / 2592000) ++ "m" ∧ s / 2592000 ≠ 0) ∨
    (p = toString (s / 86400 % 30) ++ "d" ∧ s / 86400 % 30 ≠ 0) ∨
    (p = toString (s / 3600 % 24) ++ "h" ∧ s / 3600 % 24 ≠ 0 ∧ s / 86400 % 30 < 7) ∨
    (p = toString (s / 60 % 60) ++ "m" ∧ s / 60 % 60 ≠ 0 ∧
      s / 2592000 = 0 ∧ s / 86400 % 30 = 0) ∨
    (p = toString (s % 60) ++ "s" ∧ s % 60 ≠ 0 ∧
      s / 2592000 = 0 ∧ s / 86400 % 30 = 0) := by
  have e1 : s / 60 / 60 = s / 3600 := by
    rw [Nat.div_div_eq_div_mul]
  have e2 : s / 3600 / 24 = s / 86400 := by
    rw [Nat.div_div_eq_div_mul]
  have e3 : s / 86400 / 30 = s / 2592000 := by
    rw [Nat.div_div_eq_div_mul]
  simp only [timeLeftParts, e1, e2, e3, List.mem_append] at hp
  rcases hp with ((((h | h) | h) | h) | h)
  · obtain ⟨rfl, hc⟩ := mem_if_singleton h
    exact Or.inl ⟨rfl, hc⟩
  · obtain ⟨rfl, hc⟩ := mem_if_singleton h
    exact Or.inr (Or.inl ⟨rfl, hc⟩)
  · obtain ⟨rfl, hc⟩ := mem_if_singleton h
    exact Or.inr (Or.inr (Or.inl ⟨rfl, hc.1, hc.2⟩))
  · obtain ⟨rfl, hc⟩ := mem_if_singleton h
    exact Or.inr (Or.inr (Or.inr (Or.inl ⟨rfl, hc.1, hc.2.1, hc.2.2⟩)))
  · obtain ⟨rfl, hc⟩ := mem_if_singleton h
    exact Or.inr (Or.inr (Or.inr (Or.inr ⟨rfl, hc.1, hc.2.1, hc.2.2⟩)))

/-- C7 counterexample: the claim "the hours component is omitted once the
remaining days are ≥ 7" is false at a remaining time of 35 days and 5
hours: the whole days remaining are 35 ≥ 7, yet the rendered parts contain
the hours component `5h` (the source compares the days component modulo
30-day months, not the total remaining days). -/
theorem time_left_total_days_counterexample :
    ¬ (∀ now expire : Int, now < expire →
        7 ≤ (expire - now).toNat / 86400 →
        ∀ p ∈ timeLeftParts (expire - now).toNat, p.data.getLast? ≠ some 'h') := by
  intro h
  exact h 0 3042000 (by decide) (by decide) "5h" (by decide) (by decide)

/-- C7 (amended): for every future expiry, `TIME_LEFT` is the space-joined
compact multi-unit string over months/days/hours/minutes/seconds, where
the hours component is omitted once the days component (remaining days
modulo the 30-day months already extracted) is ≥ 7, and the minutes and
seconds components are omitted once any months or days are present (i.e.
once at least one whole day remains). -/
theorem time_left_truncation (now expire : Int) (h : now < expire) :
    format_time_left now expire =
      some (" ".intercalate (timeLeftParts (expire - now).toNat)) ∧
    (7 ≤ (expire - now).toNat / 86400 % 30 →
      ∀ p ∈ timeLeftParts (expire - now).toNat, p.data.getLast? ≠ some 'h') ∧
    (86400 ≤ (expire - now).toNat →
      ∀ p ∈ timeLeftParts (expire - now).toNat,
        p.data.getLast? ≠ some 's' ∧
        (p.data.getLast? = some 'm' →
          p = toString ((expire - now).toNat / 2592000) ++ "m")) ∧
    (∀ p ∈ timeLeftParts (expire - now).toNat,
      p.data.getLast? = some 'm' ∨ p.data.getLast? = some 'd' ∨
      p.data.getLast? = some 'h' ∨ p.data.getLast? = some 's') := by
  refine ⟨?_, ?_, ?_, ?_⟩
  · have hs : ¬ (expire - now ≤ 0) := by omega
    simp [format_time_left, hs]
  · intro hd p hp
    rcases timeLeftParts_cases _ p hp with ⟨rfl, _⟩ | ⟨rfl, _⟩ | ⟨_, _, hlt⟩ |
      ⟨rfl, _⟩ | ⟨rfl, _⟩
    · rw [lastChar_append _ _ 'm' rfl]
      decide
    · rw [lastChar_append _ _ 'd' rfl]
      decide
    · omega
    · rw [lastChar_append _ _ 'm' rfl]
      decide
    · rw [lastChar_append _ _ 's' rfl]
      decide
  · intro h86 p hp
    have h1 : 1 ≤ (expire - now).toNat / 86400 :=
      (Nat.one_le_div_iff (by norm_num)).mpr h86
    rcases timeLeftParts_cases _ p hp with ⟨rfl, _⟩ | ⟨rfl, _⟩ | ⟨rfl, _, _⟩ |
      ⟨_, _, hm0, hd0⟩ | ⟨_, _, hm0, hd0⟩
    · constructor
      · rw [lastChar_append _ _ 'm' rfl]
        decide
      · intro _
        rfl
    · constructor
      · rw [lastChar_append _ _ 'd' rfl]
        decide
      · rw [lastChar_append _ _ 'd' rfl]
        intro hmm
        exact absurd hmm (by decide)
    · constructor
      · rw [lastChar_append _ _ 'h' rfl]
        decide
      · rw [lastChar_append _ _ 'h' rfl]
        intro hmm
        exact absurd hmm (by decide)
    · exact absurd h86 (by have := days_component_zero _ hm0 hd0; omega)
    · exact absurd h86 (by have := days_component_zero _ hm0 hd0; omega)
  · intro p hp
    rcases timeLeftParts_cases _ p hp with ⟨rfl, _⟩ | ⟨rfl, _⟩ | ⟨rfl, _, _⟩ |
      ⟨rfl, _⟩ | ⟨rfl, _⟩
    · exact Or.inl (lastChar_append _ _ 'm' rfl)
    · exact Or.inr (Or.inl (lastChar_append _ _ 'd' rfl))
    · exact Or.inr (Or.inr (Or.inl (lastChar_append _ _ 'h' rfl)))
    · exact Or.inl (lastChar_append _ _ 'm' rfl)
    · exact Or.inr (Or.inr (Or.inr (lastChar_append _ _ 's' rfl)))

/-- Witness for `time_left_truncation` at the concrete expiry 3042000 (35
days and 5 hours ahead of time 0). -/
theorem time_left_truncation_witness :
    format_time_left 0 3042000 =
      some (" ".intercalate (timeLeftParts (3042000 - 0 : Int).toNat)) ∧
    (7 ≤ (3042000 - 0 : Int).toNat / 86400 % 30 →
      ∀ p ∈ timeLeftParts (3042000 - 0 : Int).toNat, p.data.getLast? ≠ some 'h') ∧
    (86400 ≤ (3042000 - 0 : Int).toNat →
      ∀ p ∈ timeLeftParts (3042000 - 0 : Int).toNat,
        p.data.getLast? ≠ some 's' ∧
        (p.data.getLast? = some 'm' →
          p = toString ((3042000 - 0 : Int).toNat / 2592000) ++ "m")) ∧
    (∀ p ∈ timeLeftParts (3042000 - 0 : Int).toNat,
      p.data.getLast? = some 'm' ∨ p.data.getLast? = some 'd' ∨
      p.data.getLast? = some 'h' ∨ p.data.getLast? = some 's') :=
  time_left_truncation 0 3042000 (by decide)

/-- Insertion step of sorting a key list. -/
def insertKey (k : String) : List String → List String
  | [] => [k]
  | q :: qs => if strLt k q then k :: q :: qs else q :: insertKey k qs

/-- Sorted key list. -/
def sortKeys (l : List String) : List String := l.foldr insertKey []

theorem insertByKey_map_fst (p : String × Val) (l : List (String × Val)) :
    (insertByKey p l).map Prod.fst = insertKey p.1 (l.map Prod.fst) := by
  induction l with
  | nil => rfl
  | cons q qs ih =>
    by_cases h : strLt p.1 q.1
    · simp [insertByKey, insertKey, h]
    · simp [insertByKey, insertKey, h, ih]

/-- Key-sorting pairs sorts exactly the key list. -/
theorem sortPairs_map_fst (l : List (String × Val)) :
    (sortPairs l).map Prod.fst = sortKeys (l.map Prod.fst) := by
  induction l with
  | nil => rfl
  | cons p ps ih =>
    show (insertByKey p (sortPairs ps)).map Prod.fst = _
    rw [insertByKey_map_fst, ih]
    rfl

/-- Keys of the vmess payload in insertion order: the fixed base set plus
the TLS-dependent extras. -/
theorem vmessPayload_keys (remark address : String) (port : Int)
    (id host net path type tls sni fp alpn pbk sid spx : String) :
    (V2rayShareLink.vmessPayload remark address port id host net path type tls sni fp
        alpn pbk sid spx).map Prod.fst =
      ["add", "aid", "host", "id", "net", "path", "port", "ps", "scy", "tls",
       "type", "v"] ++
      (if tls = "tls" then ["sni", "fp", "alpn"]
       else if tls = "reality" then ["sni", "fp", "pbk", "sid", "spx"]
       else []) := by
  by_cases h1 : tls = "tls"
  · subst h1
    rfl
  · by_cases h2 : tls = "reality"
    · subst h2
      rfl
    · simp only [V2rayShareLink.vmessPayload, if_neg h1, if_neg h2]
      rfl

/-- C8: the vmess share link is the `vmess://` scheme followed by the
base64 of the key-sorted JSON payload; the payload keys are the fixed base
set, extended by sni/fp/alpn in TLS mode, by sni/fp/pbk/sid/spx in
reality mode, and by nothing otherwise. -/
theorem vmess_link_structure (remark address : String) (port : Int)
    (id host net path type tls sni fp alpn pbk sid spx : String) :
    V2rayShareLink.vmess remark address port id host net path type tls sni fp alpn
        pbk sid spx =
      "vmess://" ++ base64EncodeStr (jsonDumpsSorted (V2rayShareLink.vmessPayload
        remark address port id host net path type tls sni fp alpn pbk sid spx)) ∧
    (V2rayShareLink.vmessPayload remark address port id host net path type tls sni fp
        alpn pbk sid spx).map Prod.fst =
      ["add", "aid", "host", "id", "net", "path", "port", "ps", "scy", "tls",
       "type", "v"] ++
      (if tls = "tls" then ["sni", "fp", "alpn"]
       else if tls = "reality" then ["sni", "fp", "pbk", "sid", "spx"]
       else []) ∧
    (sortPairs (V2rayShareLink.vmessPayload remark address port id host net path type
        tls sni fp alpn pbk sid spx)).map Prod.fst =
      (if tls = "tls" then
        ["add", "aid", "alpn", "fp", "host", "id", "net", "path", "port", "ps",
         "scy", "sni", "tls", "type", "v"]
       else if tls = "reality" then
        ["add", "aid", "fp", "host", "id", "net", "path", "pbk", "port", "ps",
         "scy", "sid", "sni", "spx", "tls", "type", "v"]
       else
        ["add", "aid", "host", "id", "net", "path", "port", "ps", "scy", "tls",
         "type", "v"]) := by
  refine ⟨rfl, vmessPayload_keys remark address port id host net path type tls sni fp
    alpn pbk sid spx, ?_⟩
  rw [sortPairs_map_fst,
    vmessPayload_keys remark address port id host net path type tls sni fp alpn pbk sid spx]
  by_cases h1 : tls = "tls"
  · rw [if_pos h1, if_pos h1]
    decide
  · by_cases h2 : tls = "reality"
    · rw [if_neg h1, if_pos h2, if_neg h1, if_pos h2]
      decide
    · rw [if_neg h1, if_neg h2, if_neg h1, if_neg h2, List.append_nil]
      decide

/-- C9: `generate_subscription` errors with the exact unsupported-format
message for every format outside the four supported ones and succeeds for
all four; a protocol without account settings and a tag without an inbound
definition are silently skipped by the processing loop, never an error. -/
theorem generate_subscription_errors :
    (∀ (config_format salt : String) (choose : List String → String)
      (fmap : String → String) (ibt : String → Option InboundDefinition)
      (hbt : String → List HostOverride) (tpl : List (List (String × Val)))
      (inbounds : List (String × List String)) (proxies : String → Option ProxyAccount),
      config_format ∉ ["v2ray", "clash-meta", "clash", "sing-box"] →
      generate_subscription config_format salt choose fmap ibt hbt tpl inbounds proxies =
        .error ("Unsupported format \x22" ++ config_format ++ "\x22")) ∧
    (∀ (config_format salt : String) (choose : List String → String)
      (fmap : String → String) (ibt : String → Option InboundDefinition)
      (hbt : String → List HostOverride) (tpl : List (List (String × Val)))
      (inbounds : List (String × List String)) (proxies : String → Option ProxyAccount),
      config_format ∈ ["v2ray", "clash-meta", "clash", "sing-box"] →
      ∃ out, generate_subscription config_format salt choose fmap ibt hbt tpl inbounds
        proxies = .ok out) ∧
    (∀ (salt : String) (choose : List String → String) (fmap : String → String)
      (ibt : String → Option InboundDefinition) (hbt : String → List HostOverride)
      (protocol : String) (tags : List String) (rest : List (String × List String))
      (proxies : String → Option ProxyAccount),
      proxies protocol = none →
      process_endpoints salt choose fmap ibt hbt ((protocol, tags) :: rest) proxies =
        process_endpoints salt choose fmap ibt hbt rest proxies) ∧
    (∀ (salt : String) (choose : List String → String) (fmap : String → String)
      (ibt : String → Option InboundDefinition) (hbt : String → List HostOverride)
      (tag : String), ibt tag = none →
      processTag salt choose fmap ibt hbt tag = []) := by
  refine ⟨?_, ?_, ?_, ?_⟩
  · intro cf salt choose fmap ibt hbt tpl inbounds proxies h
    have h1 : cf ≠ "v2ray" := fun e => h (by simp [e])
    have h2 : cf ≠ "clash-meta" := fun e => h (by simp [e])
    have h3 : cf ≠ "clash" := fun e => h (by simp [e])
    have h4 : cf ≠ "sing-box" := fun e => h (by simp [e])
    simp [generate_subscription, h1, h2, h3, h4]
  · intro cf salt choose fmap ibt hbt tpl inbounds proxies h
    simp only [List.mem_cons, List.not_mem_nil, or_false] at h
    rcases h with rfl | rfl | rfl | rfl
    · exact ⟨_, rfl⟩
    · exact ⟨_, rfl⟩
    · exact ⟨_, rfl⟩
    · exact ⟨_, rfl⟩
  · intro salt choose fmap ibt hbt protocol tags rest proxies h
    simp [process_endpoints, h]
  · intro salt choose fmap ibt hbt tag h
    simp [processTag, h]

/-- Witness for `generate_subscription_errors` at concrete inputs: the
format `toml` errors with the exact message, `v2ray` succeeds, a protocol
with no settings and a tag with no inbound contribute nothing. -/
theorem generate_subscription_errors_witness :
    generate_subscription "toml" "s" exChoose id exIbt exHbt [] []
        (fun _ => none) = .error ("Unsupported format \x22" ++ "toml" ++ "\x22") ∧
    (∃ out, generate_subscription "v2ray" "s" exChoose id exIbt exHbt [] []
        (fun _ => none) = .ok out) ∧
    process_endpoints "s" exChoose id exIbt exHbt [("vmess", ["t1"])]
        (fun _ => none) =
      process_endpoints "s" exChoose id exIbt exHbt [] (fun _ => none) ∧
    processTag "s" exChoose id exIbt exHbt "missing" = [] :=
  ⟨generate_subscription_errors.1 "toml" "s" exChoose id exIbt exHbt [] []
      (fun _ => none) (by decide),
   generate_subscription_errors.2.1 "v2ray" "s" exChoose id exIbt exHbt [] []
      (fun _ => none) (by decide),
   generate_subscription_errors.2.2.1 "s" exChoose id exIbt exHbt "vmess" ["t1"] []
      (fun _ => none) rfl,
   generate_subscription_errors.2.2.2 "s" exChoose id exIbt exHbt "missing"
      (by simp [exIbt])⟩

/-- Example vmess endpoint for the remark de-duplication scenario. -/
def exVmessEp : ResolvedEndpoint :=
  ⟨"vmess", 443, "tcp", "none", "", "", "", "", "", "", "", "", "", ""⟩

/-- Example account settings. -/
def exAccount : ProxyAccount := ⟨"uid-1", "pw", "chacha20-ietf-poly1305", ""⟩

/-- C1 (code bug): `ClashConfiguration.add` registers the originally
requested remark, not the deduplicated one chosen by
`_remark_validation`, so adding three endpoints named `X` stores the node
names `X`, `X (2)`, `X (2)` — the third collides with the second — and the
registry holds `X` three times, while the claim (and the evident intent of
`_remark_validation`) expects `X`, `X (2)`, `X (3)` with the chosen names
registered. -/
theorem clash_remark_dedup_bug :
    ((ClashConfiguration.add (ClashConfiguration.add (ClashConfiguration.add
        ClashState.init "X" "a" exVmessEp exAccount) "X" "a" exVmessEp exAccount)
        "X" "a" exVmessEp exAccount).proxies.map (fun n => dGetStr n "name") =
      ["X", "X (2)", "X (2)"]) ∧
    ((ClashConfiguration.add (ClashConfiguration.add (ClashConfiguration.add
        ClashState.init "X" "a" exVmessEp exAccount) "X" "a" exVmessEp exAccount)
        "X" "a" exVmessEp exAccount).proxy_remarks = ["X", "X", "X"]) := by
  constructor <;> rfl

/-- Example shadowsocks endpoint whose host override resolved TLS to `tls`
over a ws transport. -/
def exSSEp : ResolvedEndpoint :=
  ⟨"shadowsocks", 443, "ws", "tls", "example.com", "", "/p", "", "", "", "", "", "", ""⟩

/-- C2 (code bug): the shadowsocks share link has the claimed
`ss://base64(cipher:password)@address:port#remark` form, but the Clash
node built for a shadowsocks endpoint is not free of TLS and transport
fields: `make_node` early-returns only for the literal type `ss` while
`add` passes `shadowsocks`, so the node carries `tls`, `servername` and a
populated `ws-opts` block (and every node carries a `{network}-opts`
key). -/
theorem shadowsocks_clash_node_bug :
    V2rayShareLink.shadowsocks "SS" "srv" 443 "pw" "chacha20-ietf-poly1305" =
      "ss://Y2hhY2hhMjAtaWV0Zi1wb2x5MTMwNTpwdw==@srv:443#SS" ∧
    dGetStr ((ClashConfiguration.add ClashState.init "SS" "srv" exSSEp
      exAccount).proxies.headD []) "type" = "shadowsocks" ∧
    dGet ((ClashConfiguration.add ClashState.init "SS" "srv" exSSEp
      exAccount).proxies.headD []) "tls" = some (.bool true) ∧
    dGet ((ClashConfiguration.add ClashState.init "SS" "srv" exSSEp
      exAccount).proxies.headD []) "servername" = some (.str "example.com") ∧
    dGet ((ClashConfiguration.add ClashState.init "SS" "srv" exSSEp
      exAccount).proxies.headD []) "ws-opts" = some (.obj [("path", .str "/p")]) := by
  refine ⟨rfl, rfl, rfl, rfl, rfl⟩
